import Mathlib

/-
  Verification of `lingvo/tasks/car/input_extractor.py`.

  The file defines the `FieldsExtractor` base class (schema declaration,
  extraction, shape/type declaration, filtering) and the `LaserExtractor`
  concrete extractor (shape/type declaration conditional on configuration).
  We embed the data model and the operations shallowly: methods that may
  raise (NotImplementedError, failed assert) return `Except ExtErr`.
-/

set_option autoImplicit false

namespace InputExtractor

namespace tf

/-- Element types (`tf.DType`).  The source only ever uses `tf.float32`;
the remaining constructors stand for the other TensorFlow dtypes so that
"maps every field to float" is a non-trivial statement. -/
inductive DType where
  | float32
  | int32
  | int64
  | string_ty
deriving DecidableEq, Repr

/-- `tf.TensorShape`: a list of per-dimension sizes, where `none` embeds
Python `None` (an unknown dimension), as in `tf.TensorShape([None, 3])`. -/
structure TensorShape where
  dims : List (Option Nat)
deriving DecidableEq, Repr

/-- `tf.TensorShape.is_fully_defined`: every dimension is a known
concrete integer. -/
def TensorShape.fullyDefined (s : TensorShape) : Bool :=
  s.dims.all Option.isSome

end tf

/-- An opaque tensor value: a typed N-dimensional value with a static
shape.  Extractors never look inside it; only the surrounding structure
(key names, nesting) is inspected by the code under verification. -/
structure Tensor where
  dtype : tf.DType
  dims : List (Option Nat)
deriving DecidableEq, Repr

/-- `py_utils.NestedMap` carrying leaf values of type `α`: an unordered
named mapping, possibly nested.  We embed it as an association tree; key
order is irrelevant to the structural-compatibility check below. -/
inductive Nested (α : Type) where
  | leaf : α → Nested α
  | node : List (String × Nested α) → Nested α

/-- The raw field dictionary produced by `tf.parse_example`: shared,
read-only, never inspected by the code under verification. -/
abbrev RawFeatures := List (String × String)

/-- A schema entry for `FeatureMap()`: `tf.VarLenFeature` or
`tf.FixedLenFeature` paired with an element type. -/
inductive Feature where
  | varLenFeature (t : tf.DType)
  | fixedLenFeature (shape : List Nat) (t : tf.DType)
deriving DecidableEq, Repr

/-- Failures an extractor call can raise: `NotImplementedError` from a
missing required override, or a failed `assert` carrying its message. -/
inductive ExtErr where
  | notImplemented
  | assertionFailed (msg : String)
deriving DecidableEq, Repr

/-- The key-and-nesting skeleton of a `Nested`, with leaf values erased. -/
inductive NStruct where
  | leaf : NStruct
  | node : List (String × NStruct) → NStruct

/-- Lexicographic comparison of character lists (by code point). -/
def charsLt : List Char → List Char → Bool
  | [], [] => false
  | [], _ :: _ => true
  | _ :: _, [] => false
  | c :: cs, d :: ds =>
      if c.toNat < d.toNat then true
      else if d.toNat < c.toNat then false
      else charsLt cs ds

/-- Lexicographic order on strings, used to canonicalise key order. -/
def strLt (a b : String) : Bool := charsLt a.data b.data

/-- Insert a keyed entry into a key-sorted list (insertion sort step). -/
def insertKey {β : Type} (p : String × β) : List (String × β) → List (String × β)
  | [] => [p]
  | q :: rest => if strLt p.1 q.1 then p :: q :: rest else q :: insertKey p rest

/-- Sort a keyed list by key, so that the skeleton of a `NestedMap`
depends only on its key set, not on insertion order. -/
def sortKeys {β : Type} : List (String × β) → List (String × β)
  | [] => []
  | p :: rest => insertKey p (sortKeys rest)

mutual

/-- Modelled from the spec: `py_utils.NestedMap` structural skeleton
(`lingvo.core.py_utils` is not part of the excerpt).  The spec requires
"the returned structured output's key set and nested structure must
exactly match `Shape()`'s key set and nested structure", so the skeleton
records keys (canonically sorted) and nesting and erases leaf values. -/
def Nested.struct {α : Type} : Nested α → NStruct
  | .leaf _ => .leaf
  | .node l => .node (sortKeys (Nested.structList l))

def Nested.structList {α : Type} : List (String × Nested α) → List (String × NStruct)
  | [] => []
  | (k, v) :: rest => (k, Nested.struct v) :: Nested.structList rest

end

mutual

/-- Boolean equality of skeletons. -/
def NStruct.beq : NStruct → NStruct → Bool
  | .leaf, .leaf => true
  | .node l, .node m => NStruct.beqList l m
  | _, _ => false

def NStruct.beqList : List (String × NStruct) → List (String × NStruct) → Bool
  | [], [] => true
  | (k, v) :: r, (k2, v2) :: r2 => k == k2 && NStruct.beq v v2 && NStruct.beqList r r2
  | _, _ => false

end

/-- Modelled from the spec: `py_utils.NestedMap.IsCompatible` (the
callee of the `assert` in `Extract`; `py_utils` is not part of the
excerpt).  Two nested maps are compatible when their key sets and nested
structures match exactly, leaf values ignored. -/
def IsCompatible {α β : Type} (x : Nested α) (y : Nested β) : Bool :=
  NStruct.beq x.struct y.struct

mutual

/-- Render a skeleton as text, for diagnostic messages. -/
def NStruct.render : NStruct → String
  | .leaf => "_"
  | .node l => "(" ++ NStruct.renderList l ++ ")"

def NStruct.renderList : List (String × NStruct) → String
  | [] => ""
  | (k, v) :: rest =>
      k ++ ": " ++ NStruct.render v ++ (if rest.isEmpty then "" else ", ") ++
        NStruct.renderList rest

end

/-- Modelled from the spec: `py_utils.NestedMap.DebugString` (not part
of the excerpt) renders the map's structure for diagnosis; the
shape-contract error "includes both the actual output structure and the
declared shape structure". -/
def Nested.DebugString {α : Type} (x : Nested α) : String :=
  x.struct.render

/-- Top-level keys of a nested map (the key set of the dictionary). -/
def Nested.topKeys {α : Type} : Nested α → List String
  | .leaf _ => []
  | .node l => l.map Prod.fst

/-- Membership of a key in the top-level key set. -/
def Nested.hasKey {α : Type} (x : Nested α) (k : String) : Bool :=
  x.topKeys.contains k

/-- Attribute assignment `ret.k = v` on a `NestedMap`: replace the entry
if the key is present, otherwise append it. -/
def setList {α : Type} : List (String × Nested α) → String → Nested α → List (String × Nested α)
  | [], k, v => [(k, v)]
  | (k2, v2) :: rest, k, v =>
      if k2 == k then (k, v) :: rest else (k2, v2) :: setList rest k v

/-- Attribute assignment on a nested map (no-op on a leaf, which never
occurs in the source). -/
def Nested.setKey {α : Type} (x : Nested α) (k : String) (v : Nested α) : Nested α :=
  match x with
  | .leaf a => .leaf a
  | .node l => .node (setList l k v)

mutual

/-- Every `TensorShape` leaf of the nested map is fully defined. -/
def Nested.allFullyDefined : Nested tf.TensorShape → Bool
  | .leaf s => s.fullyDefined
  | .node l => Nested.allFullyDefinedList l

def Nested.allFullyDefinedList : List (String × Nested tf.TensorShape) → Bool
  | [] => true
  | (_, v) :: rest => Nested.allFullyDefined v && Nested.allFullyDefinedList rest

end

/-- The `FieldsExtractor` interface: one record per constructed
extractor, holding the (possibly overridden) methods.  `ExtractImpl`
embeds the subclass hook `_Extract`.  Methods that can raise return
`Except ExtErr`; `Filter` returns a bucket id. -/
structure FieldsExtractor where
  FeatureMap : Except ExtErr (List (String × Feature))
  ExtractImpl : RawFeatures → Except ExtErr (Nested Tensor)
  Shape : Except ExtErr (Nested tf.TensorShape)
  DType : Except ExtErr (Nested tf.DType)
  Filter : Nested Tensor → Int

/-- The base `FieldsExtractor`: `FeatureMap`, `Shape`, `DType` and
`_Extract` all `raise NotImplementedError()`; `Filter` returns `1`. -/
def baseFieldsExtractor : FieldsExtractor where
  FeatureMap := .error .notImplemented
  ExtractImpl := fun _ => .error .notImplemented
  Shape := .error .notImplemented
  DType := .error .notImplemented
  Filter := fun _ => 1

/-- `FieldsExtractor.Extract` (lines 91-107): run `self._Extract`, then
`assert outputs.IsCompatible(shapes)` with message
`'{0} vs. {1}'` formatted from the two debug strings (written here with
positional text only), and return `outputs`. -/
def FieldsExtractor.Extract (e : FieldsExtractor) (features : RawFeatures) :
    Except ExtErr (Nested Tensor) :=
  match e.ExtractImpl features with
  | .error err => .error err
  | .ok outputs =>
    match e.Shape with
    | .error err => .error err
    | .ok shapes =>
      if IsCompatible outputs shapes then .ok outputs
      else .error (.assertionFailed
        (outputs.DebugString ++ " vs. " ++ shapes.DebugString))

/-- `LaserExtractor.Params`: `max_num_points` (nullable, default
`None`) and `num_features` (default `1`). -/
structure LaserParams where
  max_num_points : Option Nat
  num_features : Nat
deriving DecidableEq, Repr

/-- The defaults declared by `LaserExtractor.Params`. -/
def laserDefaultParams : LaserParams := ⟨none, 1⟩

/-- `LaserExtractor.Shape` (lines 170-177): `points_xyz` of shape
`[max_num_points, 3]`, `points_feature` of shape
`[max_num_points, num_features]`, and, only when `max_num_points` is not
`None`, `points_padding` of shape `[max_num_points]`. -/
def laserShape (p : LaserParams) : Nested tf.TensorShape :=
  let ret : Nested tf.TensorShape :=
    .node [("points_xyz", .leaf ⟨[p.max_num_points, some 3]⟩),
           ("points_feature", .leaf ⟨[p.max_num_points, some p.num_features]⟩)]
  match p.max_num_points with
  | some n => ret.setKey "points_padding" (.leaf ⟨[some n]⟩)
  | none => ret

/-- `LaserExtractor.DType` (lines 179-183): `points_xyz` and
`points_feature` are `tf.float32`; `points_padding` is added, also as
`tf.float32`, only when `max_num_points` is not `None`. -/
def laserDType (p : LaserParams) : Nested tf.DType :=
  let ret : Nested tf.DType :=
    .node [("points_xyz", .leaf .float32), ("points_feature", .leaf .float32)]
  match p.max_num_points with
  | some _ => ret.setKey "points_padding" (.leaf .float32)
  | none => ret

/-- `LaserExtractor`: overrides only `Params`, `Shape` and `DType`;
`FeatureMap` and `_Extract` are inherited from the base (so they raise
`NotImplementedError`), and `Filter` is the inherited keep-everything
default. -/
def LaserExtractor (p : LaserParams) : FieldsExtractor :=
  { baseFieldsExtractor with
    Shape := .ok (laserShape p)
    DType := .ok (laserDType p) }

/-- A concrete structured output matching the laser shape contract for
`max_num_points = 4`, `num_features = 1` (used to exercise `Extract`). -/
def demoOutputs : Nested Tensor :=
  .node [("points_xyz", .leaf ⟨.float32, [some 4, some 3]⟩),
         ("points_feature", .leaf ⟨.float32, [some 4, some 1]⟩),
         ("points_padding", .leaf ⟨.float32, [some 4]⟩)]

/-- A well-behaved concrete extractor: the laser contract for
`max_num_points = 4`, `num_features = 1` with an `_Extract` override
returning a matching output. -/
def demoGood : FieldsExtractor :=
  { LaserExtractor ⟨some 4, 1⟩ with ExtractImpl := fun _ => .ok demoOutputs }

/-- A deliberately mismatched `_Extract`: returns only `points_xyz`
while the declared shape also has `points_feature` and
`points_padding` (the spec's Scenario 3). -/
def mismatchOutputs : Nested Tensor :=
  .node [("points_xyz", .leaf ⟨.float32, [some 4, some 3]⟩)]

/-- An extractor whose `_Extract` violates the declared shape contract. -/
def demoMismatch : FieldsExtractor :=
  { LaserExtractor ⟨some 4, 1⟩ with ExtractImpl := fun _ => .ok mismatchOutputs }

/-- C1: `Extract` first runs `_Extract`; when the output's key set and
nested structure match `Shape()`'s it returns that output, and on any
structural mismatch it fails with a shape-contract assertion whose
message contains both the actual output structure and the declared
shape structure. -/
theorem extract_shape_contract (e : FieldsExtractor) (features : RawFeatures)
    (outputs : Nested Tensor) (shapes : Nested tf.TensorShape)
    (ho : e.ExtractImpl features = .ok outputs) (hs : e.Shape = .ok shapes) :
    (IsCompatible outputs shapes = true → e.Extract features = .ok outputs) ∧
    (IsCompatible outputs shapes = false →
      e.Extract features =
        .error (.assertionFailed (outputs.DebugString ++ " vs. " ++ shapes.DebugString)) ∧
      (∃ a, outputs.DebugString ++ " vs. " ++ shapes.DebugString =
        outputs.DebugString ++ a) ∧
      (∃ b, outputs.DebugString ++ " vs. " ++ shapes.DebugString =
        b ++ shapes.DebugString)) := by
  unfold FieldsExtractor.Extract
  rw [ho, hs]
  constructor
  · intro h
    simp [h]
  · intro h
    refine ⟨by simp [h], ⟨" vs. " ++ shapes.DebugString, String.append_assoc ..⟩,
      ⟨outputs.DebugString ++ " vs. ", rfl⟩⟩

/-- Closed instance of `extract_shape_contract` at a concrete
mismatching extractor, discharging both hypotheses. -/
theorem extract_shape_contract_witness :
    demoMismatch.ExtractImpl [] = .ok mismatchOutputs ∧
    demoMismatch.Shape = .ok (laserShape ⟨some 4, 1⟩) ∧
    ((IsCompatible mismatchOutputs (laserShape ⟨some 4, 1⟩) = true →
        demoMismatch.Extract [] = .ok mismatchOutputs) ∧
     (IsCompatible mismatchOutputs (laserShape ⟨some 4, 1⟩) = false →
        demoMismatch.Extract [] =
          .error (.assertionFailed (mismatchOutputs.DebugString ++ " vs. " ++
            (laserShape ⟨some 4, 1⟩).DebugString)) ∧
        (∃ a, mismatchOutputs.DebugString ++ " vs. " ++
          (laserShape ⟨some 4, 1⟩).DebugString = mismatchOutputs.DebugString ++ a) ∧
        (∃ b, mismatchOutputs.DebugString ++ " vs. " ++
          (laserShape ⟨some 4, 1⟩).DebugString = b ++ (laserShape ⟨some 4, 1⟩).DebugString))) :=
  ⟨rfl, rfl,
    extract_shape_contract demoMismatch [] mismatchOutputs (laserShape ⟨some 4, 1⟩) rfl rfl⟩

/-- C2: for the laser extractor under every configuration,
`points_padding` is a key of both `Shape()` and `DType()` exactly when
`max_num_points` is not `None`, and of neither otherwise. -/
theorem laser_points_padding_iff_max_num_points (p : LaserParams) :
    ∃ s d, (LaserExtractor p).Shape = .ok s ∧ (LaserExtractor p).DType = .ok d ∧
      s.hasKey "points_padding" = p.max_num_points.isSome ∧
      d.hasKey "points_padding" = p.max_num_points.isSome := by
  refine ⟨laserShape p, laserDType p, rfl, rfl, ?_, ?_⟩ <;>
    (obtain ⟨m, nf⟩ := p; cases m <;> rfl)

/-- C3: the key set of the laser extractor's `Shape()` equals the key
set of its `DType()` under every configuration. -/
theorem laser_shape_dtype_same_keys (p : LaserParams) :
    ∃ s d, (LaserExtractor p).Shape = .ok s ∧ (LaserExtractor p).DType = .ok d ∧
      s.topKeys = d.topKeys := by
  refine ⟨laserShape p, laserDType p, rfl, rfl, ?_⟩
  obtain ⟨m, nf⟩ := p
  cases m <;> rfl

/-- C4: any extractor that does not override `Filter` (its `Filter` is
the base implementation) returns exactly 1 on every structured output. -/
theorem base_filter_returns_one (e : FieldsExtractor)
    (h : e.Filter = baseFieldsExtractor.Filter) (outputs : Nested Tensor) :
    e.Filter outputs = 1 := by
  rw [h]
  rfl

/-- Closed instance of `base_filter_returns_one` at the laser extractor
(which inherits the base `Filter`), discharging the hypothesis. -/
theorem base_filter_returns_one_witness :
    (LaserExtractor laserDefaultParams).Filter = baseFieldsExtractor.Filter ∧
    (LaserExtractor laserDefaultParams).Filter (.node []) = 1 :=
  ⟨rfl, base_filter_returns_one (LaserExtractor laserDefaultParams) rfl (.node [])⟩

/-- C5: on the base `FieldsExtractor`, `Extract` fails with the
not-implemented error coming from the missing `_Extract` override (not
a shape-contract assertion, so no validation has run), and `Shape`,
`DType` and `FeatureMap` fail with not-implemented as well. -/
theorem base_extractor_not_implemented (features : RawFeatures) :
    baseFieldsExtractor.Extract features = .error .notImplemented ∧
    baseFieldsExtractor.ExtractImpl features = .error .notImplemented ∧
    baseFieldsExtractor.Shape = .error .notImplemented ∧
    baseFieldsExtractor.DType = .error .notImplemented ∧
    baseFieldsExtractor.FeatureMap = .error .notImplemented :=
  ⟨rfl, rfl, rfl, rfl, rfl⟩

/-- C6 does not hold as stated: with `max_num_points = None` (the
default) the laser `Shape()` gives `points_xyz` the shape `[None, 3]`
and `points_feature` the shape `[None, num_features]`, whose leading
dimension is unknown, so not every per-dimension size is a known
concrete integer. -/
theorem laser_shape_fully_defined_counterexample :
    (LaserExtractor ⟨none, 1⟩).Shape = .ok (laserShape ⟨none, 1⟩) ∧
    laserShape ⟨none, 1⟩ =
      .node [("points_xyz", .leaf ⟨[none, some 3]⟩),
             ("points_feature", .leaf ⟨[none, some 1]⟩)] ∧
    (laserShape ⟨none, 1⟩).allFullyDefined = false ∧
    tf.TensorShape.fullyDefined ⟨[none, some 3]⟩ = false :=
  ⟨rfl, rfl, rfl, rfl⟩

/-- C6 amended: every shape returned by the laser `Shape()` is fully
specified exactly when `max_num_points` is not `None`; when it is
`None`, the leading dimension of `points_xyz` and `points_feature` is
unknown. -/
theorem laser_shape_fully_defined_iff_max_num_points (p : LaserParams) :
    ∃ s, (LaserExtractor p).Shape = .ok s ∧
      s.allFullyDefined = p.max_num_points.isSome := by
  refine ⟨laserShape p, rfl, ?_⟩
  obtain ⟨m, nf⟩ := p
  cases m <;> rfl

/-- C7: a laser extractor with `max_num_points = 1024` and
`num_features = 4` declares `points_xyz : [1024, 3]`,
`points_feature : [1024, 4]`, `points_padding : [1024]`, all of dtype
`tf.float32`. -/
theorem laser_scenario_1024_4 :
    (LaserExtractor ⟨some 1024, 4⟩).Shape =
      .ok (.node [("points_xyz", .leaf ⟨[some 1024, some 3]⟩),
                  ("points_feature", .leaf ⟨[some 1024, some 4]⟩),
                  ("points_padding", .leaf ⟨[some 1024]⟩)]) ∧
    (LaserExtractor ⟨some 1024, 4⟩).DType =
      .ok (.node [("points_xyz", .leaf .float32),
                  ("points_feature", .leaf .float32),
                  ("points_padding", .leaf .float32)]) :=
  ⟨rfl, rfl⟩

/-- C8: `Shape`, `DType` and `FeatureMap` of a constructed laser
extractor are pure functions of the configuration fixed at
construction: they take no raw-record argument in this embedding, and
any two extractors constructed from equal configuration options have
identical results, so repeated calls agree. -/
theorem laser_methods_pure (p q : LaserParams)
    (hm : p.max_num_points = q.max_num_points)
    (hn : p.num_features = q.num_features) :
    (LaserExtractor p).Shape = (LaserExtractor q).Shape ∧
    (LaserExtractor p).DType = (LaserExtractor q).DType ∧
    (LaserExtractor p).FeatureMap = (LaserExtractor q).FeatureMap := by
  obtain ⟨m, nf⟩ := p
  obtain ⟨m2, nf2⟩ := q
  dsimp only at hm hn
  subst hm
  subst hn
  exact ⟨rfl, rfl, rfl⟩

/-- Closed instance of `laser_methods_pure` for two calls on one
configuration, discharging both hypotheses. -/
theorem laser_methods_pure_witness :
    (⟨some 2, 3⟩ : LaserParams).max_num_points =
      (⟨some 2, 3⟩ : LaserParams).max_num_points ∧
    (⟨some 2, 3⟩ : LaserParams).num_features =
      (⟨some 2, 3⟩ : LaserParams).num_features ∧
    ((LaserExtractor ⟨some 2, 3⟩).Shape = (LaserExtractor ⟨some 2, 3⟩).Shape ∧
     (LaserExtractor ⟨some 2, 3⟩).DType = (LaserExtractor ⟨some 2, 3⟩).DType ∧
     (LaserExtractor ⟨some 2, 3⟩).FeatureMap = (LaserExtractor ⟨some 2, 3⟩).FeatureMap) :=
  ⟨rfl, rfl, laser_methods_pure ⟨some 2, 3⟩ ⟨some 2, 3⟩ rfl rfl⟩

/-- C9: whenever `Extract` succeeds, the value it returns is exactly
what `_Extract` produced: no field is reshaped, padded, coerced, added
or removed between the two. -/
theorem extract_returns_extract_impl_output (e : FieldsExtractor)
    (features : RawFeatures) (r : Nested Tensor)
    (h : e.Extract features = .ok r) :
    e.ExtractImpl features = .ok r := by
  unfold FieldsExtractor.Extract at h
  cases he : e.ExtractImpl features with
  | error err =>
    rw [he] at h
    exact absurd h (by simp)
  | ok outputs =>
    rw [he] at h
    cases hs : e.Shape with
    | error err =>
      rw [hs] at h
      exact absurd h (by simp)
    | ok shapes =>
      rw [hs] at h
      by_cases hc : IsCompatible outputs shapes = true
      · simp only [hc, if_true] at h
        exact h
      · simp only [Bool.not_eq_true] at hc
        simp [hc] at h

/-- Closed instance of `extract_returns_extract_impl_output` at a
concrete well-behaved extractor, discharging the hypothesis. -/
theorem extract_returns_extract_impl_output_witness :
    demoGood.Extract [] = .ok demoOutputs ∧
    demoGood.ExtractImpl [] = .ok demoOutputs :=
  ⟨rfl, extract_returns_extract_impl_output demoGood [] demoOutputs rfl⟩

/-- C10: the laser extractor overrides only `Params`, `Shape` and
`DType`: its `_Extract` (hence `Extract`) and `FeatureMap` raise the
base not-implemented error for every configuration and raw field
dictionary, its inherited `Filter` returns 1 on every output, and its
`Shape`/`DType` are the overridden declarations. -/
theorem laser_inherits_base_behaviour (p : LaserParams) (features : RawFeatures)
    (outputs : Nested Tensor) :
    (LaserExtractor p).Extract features = .error .notImplemented ∧
    (LaserExtractor p).ExtractImpl features = .error .notImplemented ∧
    (LaserExtractor p).FeatureMap = .error .notImplemented ∧
    (LaserExtractor p).Filter outputs = 1 ∧
    (LaserExtractor p).Shape = .ok (laserShape p) ∧
    (LaserExtractor p).DType = .ok (laserDType p) :=
  ⟨rfl, rfl, rfl, rfl, rfl, rfl⟩

end InputExtractor
